import Mathlib

/-!
Verification of the time-series integrity and incremental synchronization
engine of the stocks-data repository.  The Python sources are shallowly
embedded: pandas DataFrames become lists of (timestamp, row) pairs together
with a column list, dates become civil dates or epoch-day numbers, and
fallible operations return Option/Except values.  All definitions follow the
Python source files (src/data_merger.py, src/data_validator.py,
src/metadata_manager.py, src/retry_manager.py, src/data_fetcher.py,
scripts/daily_update.py, scripts/fix_gaps.py).
-/

namespace StocksData

/-! ## Civil dates (Python datetime.date / datetime.weekday) -/

/-- A civil calendar date, as used by the gap classifier in fix_gaps.py. -/
structure Date where
  year : Nat
  month : Nat
  day : Nat
deriving DecidableEq, Repr

/-- Days since 1970-01-01 for a Gregorian civil date (valid for years from
1600 on, which covers every date this system handles).  This mirrors the
date arithmetic that Python's datetime performs. -/
def Date.toEpochDay (d : Date) : Int :=
  let y : Nat := if d.month ≤ 2 then d.year - 1 else d.year
  let era : Nat := y / 400
  let yoe : Nat := y % 400
  let mp : Nat := if 2 < d.month then d.month - 3 else d.month + 9
  let doy : Nat := (153 * mp + 2) / 5 + d.day - 1
  let doe : Nat := yoe * 365 + yoe / 4 + doy - yoe / 100
  (era * 146097 + doe : Int) - 719468

/-- Python datetime.weekday(): Monday = 0 .. Sunday = 6.
1970-01-01 was a Thursday (weekday 3). -/
def Date.weekday (d : Date) : Int :=
  (d.toEpochDay + 3).emod 7

/-! ## Data model: rows and frames -/

/-- Timestamps are integers; the merger and validator never interpret them
beyond ordering, differencing and calendar-day grouping. -/
abbrev Timestamp := Int

/-- One OHLCV record.  Fields are optional to model pandas null (NaN)
entries; comparisons against NaN are false in pandas, which the quality
checks below reproduce. -/
structure Row where
  Open : Option Rat
  High : Option Rat
  Low : Option Rat
  Close : Option Rat
  Volume : Option Rat
deriving DecidableEq, Repr

/-- A pandas DataFrame with a datetime index: the column list, the indexed
rows in frame order, and the timezone of the index (none = tz-naive). -/
structure DataFrame where
  columns : List String
  rows : List (Timestamp × Row)
  tz : Option String
deriving DecidableEq, Repr

/-- The index of the frame, in frame order. -/
def DataFrame.ts (df : DataFrame) : List Timestamp :=
  df.rows.map Prod.fst

/-- pd.DataFrame(): no columns, no rows. -/
def emptyFrame : DataFrame :=
  { columns := [], rows := [], tz := none }

/-- Column value of a row by pandas column name. -/
def Row.get (r : Row) (col : String) : Option Rat :=
  if col = "Open" then r.Open
  else if col = "High" then r.High
  else if col = "Low" then r.Low
  else if col = "Close" then r.Close
  else if col = "Volume" then r.Volume
  else none

/-- The required OHLCV columns checked by validator and merger. -/
def requiredColumns : List String :=
  ["Open", "High", "Low", "Close", "Volume"]

/-- Union of column lists in order of first appearance, as pd.concat
produces. -/
def colUnion (a b : List String) : List String :=
  a ++ b.filter (fun c => !(a.contains c))

/-- pd.concat of two frames: rows appended, columns unioned. -/
def concatFrames (a b : DataFrame) : DataFrame :=
  { columns := colUnion a.columns b.columns, rows := a.rows ++ b.rows, tz := a.tz }

/-- Count of index positions flagged by pandas Index.duplicated(): an entry
is flagged when its timestamp already occurred earlier (`seen`).  This is
df.index.duplicated().sum(). -/
def tsDuplicatedCount (seen : List Timestamp) : List Timestamp → Nat
  | [] => 0
  | t :: rest => (if t ∈ seen then 1 else 0) + tsDuplicatedCount (t :: seen) rest

/-- df.index.duplicated().sum() for a frame. -/
def DataFrame.duplicatedCount (df : DataFrame) : Nat :=
  tsDuplicatedCount [] df.ts

/-! ## Merger (src/data_merger.py) -/

/-- df[~df.index.duplicated(keep='last')]: keep, for each timestamp, only
its last occurrence, preserving frame order. -/
def dedupKeepLast : List (Timestamp × Row) → List (Timestamp × Row)
  | [] => []
  | r :: rest =>
    if r.1 ∈ rest.map Prod.fst then dedupKeepLast rest
    else r :: dedupKeepLast rest

/-- DataMerger._deduplicate with its default keep='last' (the only value
used by merge_data): returns the frame unchanged when no timestamp is
duplicated, otherwise drops all but the last occurrence of each
timestamp. -/
def deduplicate (df : DataFrame) : DataFrame :=
  if 0 < df.duplicatedCount then { df with rows := dedupKeepLast df.rows }
  else df

/-- Ordering of indexed rows by timestamp, used to model sort_index(). -/
def rowLe (a b : Timestamp × Row) : Prop := a.1 ≤ b.1

instance : DecidableRel rowLe :=
  fun a b => inferInstanceAs (Decidable (a.1 ≤ b.1))

instance : IsTrans (Timestamp × Row) rowLe :=
  ⟨fun _ _ _ h1 h2 => le_trans h1 h2⟩

instance : IsTotal (Timestamp × Row) rowLe :=
  ⟨fun a b => le_total a.1 b.1⟩

/-- df.sort_index(): rows reordered into ascending timestamp order. -/
def sortIndex (df : DataFrame) : DataFrame :=
  { df with rows := df.rows.insertionSort rowLe }

/-- DataMerger.merge_data.  Empty incoming data returns the existing frame
unchanged (or an empty frame when absent); otherwise the frames are
concatenated, optionally deduplicated keeping the last occurrence, and
optionally sorted by timestamp. -/
def mergeData (existing : Option DataFrame) (newDf : DataFrame)
    (dedup : Bool := true) (sort : Bool := true) : DataFrame :=
  if newDf.rows.isEmpty then
    match existing with
    | some e => e
    | none => emptyFrame
  else
    let merged :=
      match existing with
      | none => newDf
      | some e => if e.rows.isEmpty then newDf else concatFrames e newDf
    let merged1 := if dedup then deduplicate merged else merged
    if sort then sortIndex merged1 else merged1

/-- Non-strict ascending check on the index,
pandas Index.is_monotonic_increasing. -/
def isMonotonicIncreasing : List Timestamp → Bool
  | [] => true
  | [_] => true
  | a :: b :: rest => a ≤ b && isMonotonicIncreasing (b :: rest)

/-- DataMerger._quick_validate: non-empty, sorted index, no duplicate
timestamps, all required OHLCV columns present. -/
def quickValidate (df : DataFrame) : Bool :=
  if df.rows.isEmpty then false
  else if !(isMonotonicIncreasing df.ts) then false
  else if 0 < df.duplicatedCount then false
  else if (requiredColumns.filter (fun c => !(df.columns.contains c))) ≠ [] then false
  else true

/-- Result of merge_and_save: either a successful save with the total row
count, or the MergeError raised when the merged data fails the pre-save
quick validation. -/
inductive MergeOutcome where
  | ok : Nat → MergeOutcome
  | mergeError : String → MergeOutcome
deriving DecidableEq, Repr

/-- DataMerger.merge_and_save over an explicit file state (the on-disk
series file content; none = file absent).  Loads the existing frame, merges
the new data, and when validation is requested aborts with a MergeError
before any write if the merged frame fails _quick_validate; otherwise the
file is overwritten with the merged frame. -/
def mergeAndSave (fs : Option DataFrame) (newDf : DataFrame)
    (validate : Bool := true) : MergeOutcome × Option DataFrame :=
  let existing := fs
  let merged := mergeData existing newDf
  if validate && !(quickValidate merged) then
    (.mergeError "Merged data failed validation", fs)
  else
    (.ok merged.rows.length, some merged)

/-! ## Validator (src/data_validator.py) -/

/-- One entry of ValidationReport.issues. -/
structure Issue where
  category : String
  severity : String
  message : String
  details : Option String
deriving DecidableEq, Repr

/-- ValidationReport: issue list, warning list, stats, and the derived
is_valid flag. -/
structure ValidationReport where
  issues : List Issue
  warnings : List String
  stats : List (String × String)
  is_valid : Bool
deriving DecidableEq, Repr

/-- A fresh report: no issues, valid. -/
def ValidationReport.empty : ValidationReport :=
  { issues := [], warnings := [], stats := [], is_valid := true }

/-- ValidationReport.add_issue: records the issue and flips is_valid to
false when the severity is error or critical. -/
def addIssue (r : ValidationReport) (category severity message : String)
    (details : Option String) : ValidationReport :=
  { r with
    issues := r.issues ++ [⟨category, severity, message, details⟩],
    is_valid := if severity = "error" ∨ severity = "critical" then false else r.is_valid }

/-- ValidationReport.add_warning. -/
def addWarning (r : ValidationReport) (message : String) : ValidationReport :=
  { r with warnings := r.warnings ++ [message] }

/-- ValidationReport.add_stat. -/
def addStat (r : ValidationReport) (key value : String) : ValidationReport :=
  { r with stats := r.stats ++ [(key, value)] }

/-- DataValidator.check_duplicates: the number of duplicated index
positions. -/
def checkDuplicates (df : DataFrame) : Nat :=
  df.duplicatedCount

/-- df[~df.index.duplicated(keep='first')]: keep only the first occurrence
of each timestamp, preserving frame order. -/
def keepFirstAux (seen : List Timestamp) : List (Timestamp × Row) → List (Timestamp × Row)
  | [] => []
  | r :: rest =>
    if r.1 ∈ seen then keepFirstAux seen rest
    else r :: keepFirstAux (r.1 :: seen) rest

/-- DataValidator.fix_duplicates with its default method='first' (the only
value validate_dataframe uses). -/
def fixDuplicates (df : DataFrame) : DataFrame :=
  if 0 < df.duplicatedCount then { df with rows := keepFirstAux [] df.rows }
  else df

/-- String suffix test (String.endsWith, stated over the character list so
that concrete instances evaluate). -/
def strEndsWith (s suffix : String) : Bool :=
  suffix.data.isSuffixOf s.data

/-- Decimal digit value of a character, none for non-digits. -/
def digitVal (c : Char) : Option Nat :=
  if c.isDigit then some (c.toNat - 48) else none

/-- Parse of a nonempty all-digit string (Python int on the interval
prefixes; failures are caught and yield None). -/
def strToNat (s : String) : Option Nat :=
  if s.data = [] then none
  else
    s.data.foldl
      (fun acc c =>
        match acc, digitVal c with
        | some n, some d => some (n * 10 + d)
        | _, _ => none)
      (some 0)

/-- DataValidator._parse_interval, in minutes:
m = minutes, h = hours, d = days, wk = weeks, mo = 30 days. -/
def parseInterval (interval : String) : Option Int :=
  if strEndsWith interval "m" then
    (strToNat (interval.dropRight 1)).map (fun n => (n : Int))
  else if strEndsWith interval "h" then
    (strToNat (interval.dropRight 1)).map (fun n => (n : Int) * 60)
  else if strEndsWith interval "d" then
    (strToNat (interval.dropRight 1)).map (fun n => (n : Int) * 1440)
  else if strEndsWith interval "wk" then
    (strToNat (interval.dropRight 2)).map (fun n => (n : Int) * 10080)
  else if strEndsWith interval "mo" then
    (strToNat (interval.dropRight 2)).map (fun n => (n : Int) * 43200)
  else none

/-- The intraday grains that check_gaps treats with day-boundary logic. -/
def intradayIntervals : List String :=
  ["1m", "2m", "5m", "15m", "30m", "60m", "1h"]

/-- One gap found by check_gaps: message, details, and the row position of
the gap's right endpoint. -/
structure Gap where
  message : String
  details : String
  index : Nat
deriving DecidableEq, Repr

/-- The calendar day of a minute-granularity timestamp (Python .date()). -/
def tsDay (t : Timestamp) : Int := Int.fdiv t 1440

/-- DataValidator.check_gaps.  Intraday grains: flag consecutive deltas over
twice the nominal grain, skipping pairs on different calendar days.  Daily
and coarser: flag deltas over 4 days for the 1d grain, else over twice the
nominal grain; the reported position is the first frame position of the
flagged timestamp (pandas get_loc). -/
def checkGaps (df : DataFrame) (interval : String) : List Gap :=
  if df.rows.length < 2 then []
  else
    match parseInterval interval with
    | none => []
    | some td =>
      let tss := df.ts
      if interval ∈ intradayIntervals then
        let tolerance := 2 * td
        (List.range tss.length).filterMap (fun i =>
          if i = 0 then none
          else
            let prev := tss.getD (i - 1) 0
            let curr := tss.getD i 0
            if tsDay prev ≠ tsDay curr then none
            else if tolerance < curr - prev then
              some ⟨"Gap detected at position " ++ toString i,
                    "Expected " ++ toString td ++ " minutes, got " ++ toString (curr - prev),
                    i⟩
            else none)
      else
        let maxGap : Int := if interval = "1d" then 4 * 1440 else 2 * td
        (List.range tss.length).filterMap (fun i =>
          if i = 0 then none
          else
            let prev := tss.getD (i - 1) 0
            let curr := tss.getD i 0
            if maxGap < curr - prev then
              some ⟨"Large gap detected at " ++ toString curr,
                    "Gap size: " ++ toString (curr - prev),
                    tss.indexOf curr⟩
            else none)

/-- One quality finding of check_data_quality (the category data_quality is
added by validate_dataframe). -/
structure QualityIssue where
  severity : String
  message : String
  details : Option String
deriving DecidableEq, Repr

/-- Number of rows of the frame whose row satisfies a predicate. -/
def countRows (df : DataFrame) (p : Row → Bool) : Nat :=
  (df.rows.filter (fun r => p r.2)).length

/-- Build one counted quality finding when the count is positive. -/
def countedIssue (severity message : String) (cnt : Nat) : Option QualityIssue :=
  if 0 < cnt then some ⟨severity, message, some (toString cnt ++ " rows")⟩ else none

/-- Pandas comparison semantics: a comparison involving a null is false. -/
def optLt (a b : Option Rat) : Bool :=
  match a, b with
  | some x, some y => decide (x < y)
  | _, _ => false

/-- DataValidator.check_data_quality: negative prices (error), zero prices
(warning), negative volume (error), High < Low (error), Open/Close outside
the High-Low range (warning), nulls per column (warning), zero volume
(info), each check guarded by column presence as in the source. -/
def checkDataQuality (df : DataFrame) : List QualityIssue :=
  let priceCols := ["Open", "High", "Low", "Close"]
  let negP := priceCols.filterMap (fun col =>
    if df.columns.contains col then
      countedIssue "error" ("Negative " ++ col ++ " prices found")
        (countRows df (fun row => optLt (row.get col) (some 0)))
    else none)
  let zeroP := priceCols.filterMap (fun col =>
    if df.columns.contains col then
      countedIssue "warning" ("Zero " ++ col ++ " prices found")
        (countRows df (fun row => row.get col == some 0))
    else none)
  let negV :=
    if df.columns.contains "Volume" then
      (countedIssue "error" "Negative volume found"
        (countRows df (fun row => optLt row.Volume (some 0)))).toList
    else []
  let hiLo :=
    if df.columns.contains "High" && df.columns.contains "Low" then
      (countedIssue "error" "High < Low detected"
        (countRows df (fun row => optLt row.High row.Low))).toList
    else []
  let ocRange :=
    if priceCols.all (fun c => df.columns.contains c) then
      (countedIssue "warning" "Open price outside High-Low range"
        (countRows df (fun row => optLt row.High row.Open || optLt row.Open row.Low))).toList
      ++ (countedIssue "warning" "Close price outside High-Low range"
        (countRows df (fun row => optLt row.High row.Close || optLt row.Close row.Low))).toList
    else []
  let nulls := requiredColumns.filterMap (fun col =>
    if df.columns.contains col then
      let cnt := countRows df (fun row => row.get col == none)
      if 0 < cnt then some ⟨"warning", "Null values in " ++ col, some (toString cnt ++ " rows")⟩
      else none
    else none)
  let zeroV :=
    if df.columns.contains "Volume" then
      (countedIssue "info" "Zero volume detected (may be non-trading days)"
        (countRows df (fun row => row.Volume == some 0))).toList
    else []
  negP ++ zeroP ++ negV ++ hiLo ++ ocRange ++ nulls ++ zeroV

/-- DataValidator.check_timezone: warning text when the index is tz-naive
or in an unexpected timezone, none when it matches. -/
def checkTimezone (df : DataFrame) (expected : String) : Option String :=
  match df.tz with
  | none => some ("Data is timezone-naive, expected " ++ expected)
  | some z =>
    if z ≠ expected then some ("Timezone mismatch: got " ++ z ++ ", expected " ++ expected)
    else none

/-- Min/max of the index rendered for the date_range stat. -/
def dateRangeStat (df : DataFrame) : String :=
  match df.ts with
  | [] => "empty"
  | t :: rest =>
    toString (rest.foldl min t) ++ " to " ++ toString (rest.foldl max t)

/-- DataValidator.validate_dataframe: structural checks (empty frame,
missing required columns) short-circuit with a critical issue; then the
duplicate check (auto-fix keeps the first occurrence), the quality checks,
the gap check (always warning severity), and the timezone warning. -/
def validateDataframe (timezone : String) (df : DataFrame) (interval : String)
    (autoFix : Bool) : DataFrame × ValidationReport :=
  let report0 := ValidationReport.empty
  if df.rows.isEmpty then
    (df, addIssue report0 "data" "critical" "DataFrame is empty or None" none)
  else
    let report1 := addStat (addStat (addStat report0
      "total_rows" (toString df.rows.length))
      "interval" interval)
      "date_range" (dateRangeStat df)
    let missing := requiredColumns.filter (fun c => !(df.columns.contains c))
    if missing ≠ [] then
      (df, addIssue report1 "structure" "critical"
        ("Missing required columns: " ++ String.intercalate ", " missing) none)
    else
      let duplicates := checkDuplicates df
      let step2 : DataFrame × ValidationReport :=
        if 0 < duplicates then
          let rep := addIssue report1 "duplicates" "error"
            ("Found " ++ toString duplicates ++ " duplicate timestamps")
            (some (toString duplicates ++ " rows"))
          if autoFix then
            (fixDuplicates df,
             addWarning rep ("Auto-fixed: Removed " ++ toString duplicates ++ " duplicates"))
          else (df, rep)
        else (df, report1)
      let validated := step2.1
      let report3 := (checkDataQuality validated).foldl
        (fun rep q => addIssue rep "data_quality" q.severity q.message q.details) step2.2
      let report4 := (checkGaps validated interval).foldl
        (fun rep g => addIssue rep "gaps" "warning" g.message (some g.details)) report3
      let report5 :=
        match checkTimezone validated timezone with
        | some w => addWarning report4 w
        | none => report4
      let report6 := addStat report5 "validated_rows" (toString validated.rows.length)
      let report7 :=
        if autoFix then addStat report6 "rows_removed" (toString (df.rows.length - validated.rows.length))
        else report6
      (validated, report7)

/-! ## Metadata store (src/metadata_manager.py) -/

/-- The metadata fields this development needs.  date_range.end and
date_range.start are kept as already-parsed epoch days (none models both an
absent value and one datetime.fromisoformat rejects, since both lead
get_next_fetch_date to return None); last_update is kept as the raw stored
string so that parse failures stay observable to needs_update. -/
structure Metadata where
  symbol : String
  interval : String
  last_update : Option String
  total_rows : Nat
  dateRangeStart : Option Int
  dateRangeEnd : Option Int
deriving DecidableEq, Repr

/-- MetadataManager._calculate_next_date: one grain-appropriate step after
the last known date (intraday and daily advance one day, weekly seven,
monthly thirty). -/
def calculateNextDate (lastDate : Int) (interval : String) : Int :=
  if strEndsWith interval "m" || strEndsWith interval "h" then lastDate + 1
  else if interval = "1d" then lastDate + 1
  else if interval = "1wk" then lastDate + 7
  else if interval = "1mo" then lastDate + 30
  else lastDate + 1

/-- MetadataManager.get_next_fetch_date: none when no end date is recorded,
otherwise the recorded end advanced by one step. -/
def getNextFetchDate (meta : Metadata) : Option Int :=
  match meta.dateRangeEnd with
  | none => none
  | some e => some (calculateNextDate e meta.interval)

/-- MetadataManager.needs_update: true when last_update is absent or cannot
be parsed (any error in the try block yields true), otherwise true iff the
age in hours is at least max_age_hours.  parseTs stands for
datetime.fromisoformat; now and the parsed instant are in seconds. -/
def needsUpdate (parseTs : String → Option Int) (meta : Metadata)
    (now : Int) (maxAgeHours : Nat) : Bool :=
  match meta.last_update with
  | none => true
  | some s =>
    match parseTs s with
    | none => true
    | some lu =>
      let ageHours : Rat := ((now - lu : Int) : Rat) / 3600
      decide ((maxAgeHours : Rat) ≤ ageHours)

/-! ## Fetch-range planner (scripts/daily_update.py, src/data_fetcher.py) -/

/-- DataFetcher.INTERVAL_LIMITS via get_max_period: the provider's maximum
lookback in days for each interval, none when unlimited (and for unknown
intervals, as dict.get returns None). -/
def getMaxPeriod (interval : String) : Option Nat :=
  if interval = "1m" then some 7
  else if interval = "2m" then some 60
  else if interval = "5m" then some 60
  else if interval = "15m" then some 60
  else if interval = "30m" then some 60
  else if interval = "60m" then some 730
  else if interval = "90m" then some 60
  else if interval = "1h" then some 730
  else none

/-- The planner's output: a (start, end) date pair or a relative period
token, never both. -/
structure FetchRange where
  start : Option Int
  stop : Option Int
  period : Option String
deriving DecidableEq, Repr

/-- DailyUpdater._calculate_fetch_range.  A specific date gives exactly that
calendar day.  Otherwise the cursor decides: no recorded end date gives the
maximum permitted lookback as a period token; a recorded end date gives the
window from get_next_fetch_date's result to now. -/
def calculateFetchRange (meta : Metadata) (specificDate : Option Int)
    (now : Int) : FetchRange :=
  match specificDate with
  | some d => ⟨some d, some (d + 1), none⟩
  | none =>
    match getNextFetchDate meta with
    | none =>
      match getMaxPeriod meta.interval with
      | none => ⟨none, none, some "max"⟩
      | some m => ⟨none, none, some (toString m ++ "d")⟩
    | some nextD => ⟨some nextD, some now, none⟩

/-! ## Fetcher retry loop (src/data_fetcher.py fetch_data) -/

/-- The observable result of DataFetcher.fetch_data: a frame or a raised
DataFetchError. -/
inductive FetchOutcome where
  | ok : DataFrame → FetchOutcome
  | fetchError : String → FetchOutcome
deriving DecidableEq, Repr

/-- One attempt of the fetch_data try block: a provider exception
propagates; an empty frame raises DataFetchError inside the try (caught by
the same except handler); otherwise the Symbol column is added and the
frame returned. -/
def fetchAttempt (provider : Nat → Except String DataFrame) (symbol : String)
    (attempt : Nat) : Except String DataFrame :=
  match provider attempt with
  | .error e => .error e
  | .ok df =>
    if df.rows.isEmpty then .error ("No data returned for " ++ symbol)
    else .ok { df with columns := colUnion df.columns ["Symbol"] }

/-- The fetch_data retry loop over the remaining attempt budget; attempt
numbers count from 1 as in the source. -/
def fetchGo (provider : Nat → Except String DataFrame) (symbol : String)
    (maxRetries : Nat) : Nat → Nat → FetchOutcome
  | 0, _ => .fetchError ("Failed to fetch data for " ++ symbol ++ " after "
      ++ toString maxRetries ++ " attempts")
  | r + 1, k =>
    match fetchAttempt provider symbol (k + 1) with
    | .ok df => .ok df
    | .error _ => fetchGo provider symbol maxRetries r (k + 1)

/-- DataFetcher.fetch_data with the provider call abstracted as an
attempt-indexed result. -/
def fetchData (provider : Nat → Except String DataFrame) (symbol : String)
    (maxRetries : Nat) : FetchOutcome :=
  fetchGo provider symbol maxRetries maxRetries 0

/-! ## Retry orchestrator (src/retry_manager.py) -/

/-- The observable result of RetryManager.retry_with_backoff: the first
successful value, or the RetryError (the spec's RetryExhausted) wrapping the
last underlying error message (none only when max_retries is zero and no
attempt ever ran). -/
inductive RetryOutcome (α : Type) where
  | ok : α → RetryOutcome α
  | exhausted : Option String → RetryOutcome α
deriving DecidableEq, Repr

/-- The retry loop: remaining budget, attempts already made, and the last
caught error; returns the outcome together with the number of attempts
actually made.  Backoff sleeping changes no observable result and is not
modelled. -/
def retryGo (op : Nat → Except String α) :
    Nat → Nat → Option String → RetryOutcome α × Nat
  | 0, k, last => (.exhausted last, k)
  | r + 1, k, _ =>
    match op (k + 1) with
    | .ok v => (.ok v, k + 1)
    | .error e => retryGo op r (k + 1) (some e)

/-- RetryManager.retry_with_backoff: up to max_retries attempts of the
operation, attempt numbers counting from 1. -/
def retryWithBackoff (op : Nat → Except String α) (maxRetries : Nat) :
    RetryOutcome α × Nat :=
  retryGo op maxRetries 0 none

/-! ## Gap classifier (scripts/fix_gaps.py) -/

/-- GapFixer.MARKET_HOLIDAYS parsed to dates. -/
def marketHolidays : List Date :=
  [⟨2024, 1, 26⟩, ⟨2024, 3, 8⟩, ⟨2024, 3, 25⟩, ⟨2024, 3, 29⟩,
   ⟨2024, 4, 11⟩, ⟨2024, 4, 17⟩, ⟨2024, 4, 21⟩, ⟨2024, 5, 1⟩,
   ⟨2024, 6, 17⟩, ⟨2024, 7, 17⟩, ⟨2024, 8, 15⟩, ⟨2024, 8, 26⟩,
   ⟨2024, 10, 2⟩, ⟨2024, 10, 12⟩, ⟨2024, 11, 1⟩, ⟨2024, 11, 15⟩,
   ⟨2024, 12, 25⟩]

/-- GapFixer._is_valid_gap: Saturday or Sunday give (true, weekend); a
listed market holiday gives (true, market_holiday); anything else gives
(false, trading_day). -/
def isValidGap (holidays : List Date) (gapDate : Date) : Bool × String :=
  if 5 ≤ gapDate.weekday then (true, "weekend")
  else if gapDate ∈ holidays then (true, "market_holiday")
  else (false, "trading_day")

/-- The classification fields of one gap record built by
GapFixer.identify_gaps. -/
structure GapInfo where
  is_valid_gap : Bool
  gap_reason : Option String
  fixable : Bool
deriving DecidableEq, Repr

/-- The per-gap classification of GapFixer.identify_gaps: defaults are
(false, none, true); only daily-grain gaps with an index are classified,
via a lookup of the gap date in the series index (a failed lookup keeps the
defaults, as the bare except does); valid gaps become unfixable. -/
def classifyGapInfo (holidays : List Date) (interval : String)
    (index : List Date) (gapIndex : Option Nat) : GapInfo :=
  let base : GapInfo := ⟨false, none, true⟩
  if interval = "1d" then
    match gapIndex with
    | some i =>
      match index.get? i with
      | some gapDate =>
        let vr := isValidGap holidays gapDate
        ⟨vr.1, some vr.2, if vr.1 then false else base.fixable⟩
      | none => base
    | none => base
  else base

/-! ## Concrete inputs used in scenarios and witnesses -/

/-- A row whose five fields all carry the same value, as the merge
scenarios of the spec treat rows as single values. -/
def rowOf (v : Nat) : Row :=
  ⟨some v, some v, some v, some v, some v⟩

/-- Existing series of the merge scenario:
(2024-01-01, 100), (2024-01-02, 101); epoch days 19723 and 19724. -/
def scenarioExisting : DataFrame :=
  ⟨requiredColumns, [(19723, rowOf 100), (19724, rowOf 101)], none⟩

/-- Incoming series of the merge scenario:
(2024-01-02, 105), (2024-01-03, 102). -/
def scenarioIncoming : DataFrame :=
  ⟨requiredColumns, [(19724, rowOf 105), (19725, rowOf 102)], none⟩

/-- An existing frame whose index is out of order. -/
def unsortedExisting : DataFrame :=
  ⟨requiredColumns, [(2, rowOf 1), (1, rowOf 2)], none⟩

/-- A frame missing most OHLCV columns, failing the quick validation. -/
def missingColsFrame : DataFrame :=
  ⟨["Open"], [(1, rowOf 1)], none⟩

/-- A row violating the High ≥ Low invariant (High = 99, Low = 100). -/
def highLowRow : Row :=
  ⟨some 100, some 99, some 100, some 100, some 1000⟩

/-- A daily series containing the High < Low row. -/
def highLowFrame : DataFrame :=
  ⟨requiredColumns, [(19723, highLowRow), (19724, rowOf 100)], none⟩

/-- Metadata of a daily entity whose recorded end date is 2024-01-01. -/
def metaDaily : Metadata :=
  ⟨"RELIANCE.NS", "1d", none, 2, some 19000, some 19723⟩

/-- An operation failing on its first two attempts, then succeeding. -/
def twiceFailingOp : Nat → Except String Nat :=
  fun i => if i ≤ 2 then .error ("fail " ++ toString i) else .ok 42

/-- An operation failing on every attempt. -/
def alwaysFailingOp : Nat → Except String Nat :=
  fun i => .error ("fail " ++ toString i)

/-- The report invariant tying is_valid to the recorded severities. -/
def ReportInv (r : ValidationReport) : Prop :=
  r.is_valid = false ↔ ∃ i ∈ r.issues, i.severity = "error" ∨ i.severity = "critical"

/-! ## Merger lemmas -/

theorem mem_of_mem_dedupKeepLast {l : List (Timestamp × Row)} {x : Timestamp × Row}
    (h : x ∈ dedupKeepLast l) : x ∈ l := by
  induction l with
  | nil => simp [dedupKeepLast] at h
  | cons a t ih =>
    rw [dedupKeepLast] at h
    split at h
    · exact List.mem_cons_of_mem a (ih h)
    · rcases List.mem_cons.mp h with h1 | h2
      · exact h1 ▸ List.mem_cons_self a t
      · exact List.mem_cons_of_mem a (ih h2)

theorem dedupKeepLast_ts_nodup (l : List (Timestamp × Row)) :
    ((dedupKeepLast l).map Prod.fst).Nodup := by
  induction l with
  | nil => simp [dedupKeepLast]
  | cons a t ih =>
    rw [dedupKeepLast]
    split
    · exact ih
    · rename_i hnot
      simp only [List.map_cons, List.nodup_cons]
      refine ⟨fun hmem => ?_, ih⟩
      rcases List.mem_map.mp hmem with ⟨x, hx, hfst⟩
      exact hnot (hfst ▸ List.mem_map_of_mem Prod.fst (mem_of_mem_dedupKeepLast hx))

theorem dedupKeepLast_mem_last (t : Timestamp) (r : Row) :
    ∀ (l₁ l₂ : List (Timestamp × Row)), t ∉ l₂.map Prod.fst →
      (t, r) ∈ dedupKeepLast (l₁ ++ (t, r) :: l₂) := by
  intro l₁
  induction l₁ with
  | nil =>
    intro l₂ hlast
    rw [List.nil_append, dedupKeepLast]
    rw [if_neg hlast]
    exact List.mem_cons_self _ _
  | cons a l₁ ih =>
    intro l₂ hlast
    rw [List.cons_append, dedupKeepLast]
    split
    · exact ih l₂ hlast
    · exact List.mem_cons_of_mem a (ih l₂ hlast)

theorem tsDuplicatedCount_zero_notmem :
    ∀ (l : List Timestamp) (seen : List Timestamp), tsDuplicatedCount seen l = 0 →
      ∀ x ∈ l, x ∉ seen := by
  intro l
  induction l with
  | nil => intro seen _ x hx; cases hx
  | cons a t ih =>
    intro seen h x hx
    rw [tsDuplicatedCount] at h
    by_cases ha : a ∈ seen
    · rw [if_pos ha] at h; omega
    · rw [if_neg ha] at h
      have ht : tsDuplicatedCount (a :: seen) t = 0 := by omega
      rcases List.mem_cons.mp hx with h1 | h1
      · exact h1 ▸ ha
      · exact fun hxs => ih (a :: seen) ht x h1 (List.mem_cons_of_mem a hxs)

theorem tsDuplicatedCount_zero_nodup :
    ∀ (l : List Timestamp) (seen : List Timestamp), tsDuplicatedCount seen l = 0 →
      l.Nodup := by
  intro l
  induction l with
  | nil => intro seen _; exact List.nodup_nil
  | cons a t ih =>
    intro seen h
    rw [tsDuplicatedCount] at h
    have ht : tsDuplicatedCount (a :: seen) t = 0 := by omega
    refine List.nodup_cons.mpr ⟨fun hat => ?_, ih (a :: seen) ht⟩
    exact tsDuplicatedCount_zero_notmem t (a :: seen) ht a hat (List.mem_cons_self _ _)

theorem deduplicate_ts_nodup (df : DataFrame) :
    ((deduplicate df).rows.map Prod.fst).Nodup := by
  rw [deduplicate]
  split
  · exact dedupKeepLast_ts_nodup df.rows
  · rename_i h
    have h0 : tsDuplicatedCount [] (df.rows.map Prod.fst) = 0 := by
      have : df.duplicatedCount = 0 := by omega
      exact this
    exact tsDuplicatedCount_zero_nodup _ [] h0

theorem deduplicate_mem_last (df : DataFrame) (t : Timestamp) (r : Row)
    (l₁ l₂ : List (Timestamp × Row)) (hsplit : df.rows = l₁ ++ (t, r) :: l₂)
    (hlast : t ∉ l₂.map Prod.fst) : (t, r) ∈ (deduplicate df).rows := by
  rw [deduplicate]
  split
  · show (t, r) ∈ dedupKeepLast df.rows
    rw [hsplit]
    exact dedupKeepLast_mem_last t r l₁ l₂ hlast
  · rw [hsplit]
    exact List.mem_append_right _ (List.mem_cons_self _ _)

theorem sortIndex_rows_perm (df : DataFrame) : (sortIndex df).rows.Perm df.rows :=
  List.perm_insertionSort rowLe df.rows

theorem sortIndex_sorted (df : DataFrame) : List.Sorted rowLe (sortIndex df).rows :=
  List.sorted_insertionSort rowLe df.rows

theorem mem_sortIndex {df : DataFrame} {x : Timestamp × Row} :
    x ∈ (sortIndex df).rows ↔ x ∈ df.rows :=
  (sortIndex_rows_perm df).mem_iff

theorem sorted_lt_of_le_nodup {l : List Timestamp}
    (hs : List.Sorted (fun a b : Timestamp => a ≤ b) l) (hn : l.Nodup) :
    List.Sorted (fun a b : Timestamp => a < b) l := by
  induction l with
  | nil => exact List.sorted_nil
  | cons a t ih =>
    rw [List.sorted_cons] at hs ⊢
    rw [List.nodup_cons] at hn
    refine ⟨fun b hb => lt_of_le_of_ne (hs.1 b hb) fun he => hn.1 (he ▸ hb), ih hs.2 hn.2⟩

theorem mergeData_eq (existing : Option DataFrame) (n : DataFrame) (h : n.rows ≠ []) :
    mergeData existing n = sortIndex (deduplicate (match existing with
      | none => n
      | some e => if e.rows.isEmpty then n else concatFrames e n)) := by
  have hne : n.rows.isEmpty = false := by
    cases hr : n.rows with
    | nil => exact absurd hr h
    | cons a t => rfl
  simp [mergeData, hne]

theorem mergeData_ts_facts (existing : Option DataFrame) (n : DataFrame) (h : n.rows ≠ []) :
    List.Sorted (fun a b : Timestamp => a < b) (mergeData existing n).ts ∧
      (mergeData existing n).ts.Nodup := by
  rw [mergeData_eq existing n h]
  generalize (match existing with
    | none => n
    | some e => if e.rows.isEmpty then n else concatFrames e n) = b
  have hnd : ((deduplicate b).rows.map Prod.fst).Nodup := deduplicate_ts_nodup b
  have hperm : ((sortIndex (deduplicate b)).rows.map Prod.fst).Perm
      ((deduplicate b).rows.map Prod.fst) := (sortIndex_rows_perm (deduplicate b)).map _
  have hn2 : ((sortIndex (deduplicate b)).rows.map Prod.fst).Nodup :=
    hperm.nodup_iff.mpr hnd
  have hsle : List.Sorted (fun a b : Timestamp => a ≤ b)
      ((sortIndex (deduplicate b)).rows.map Prod.fst) :=
    List.pairwise_map.mpr (sortIndex_sorted (deduplicate b))
  exact ⟨sorted_lt_of_le_nodup hsle hn2, hn2⟩

theorem eq_of_nodup_keys {l : List (Timestamp × Row)}
    (h : (l.map Prod.fst).Nodup) {t : Timestamp} {q r : Row}
    (hq : (t, q) ∈ l) (hr : (t, r) ∈ l) : q = r := by
  induction l with
  | nil => cases hq
  | cons a tl ih =>
    simp only [List.map_cons, List.nodup_cons] at h
    rcases List.mem_cons.mp hq with h1 | h1 <;> rcases List.mem_cons.mp hr with h2 | h2
    · rw [← h1] at h2; exact congrArg Prod.snd h2.symm
    · exfalso
      apply h.1
      rw [← h1]
      exact List.mem_map.mpr ⟨(t, r), h2, rfl⟩
    · exfalso
      apply h.1
      rw [← h2]
      exact List.mem_map.mpr ⟨(t, q), h1, rfl⟩
    · exact ih h.2 h1 h2

/-! ## Validation report lemmas -/

theorem reportInv_empty : ReportInv ValidationReport.empty := by
  simp [ReportInv, ValidationReport.empty]

theorem reportInv_addIssue (c s m : String) (d : Option String) (r : ValidationReport)
    (h : ReportInv r) : ReportInv (addIssue r c s m d) := by
  unfold ReportInv addIssue at *
  simp only [List.mem_append, List.mem_singleton]
  constructor
  · intro hv
    by_cases hs : s = "error" ∨ s = "critical"
    · exact ⟨⟨c, s, m, d⟩, Or.inr rfl, hs⟩
    · rw [if_neg hs] at hv
      rcases h.mp hv with ⟨i, hi, hsev⟩
      exact ⟨i, Or.inl hi, hsev⟩
  · rintro ⟨i, hi, hsev⟩
    by_cases hs : s = "error" ∨ s = "critical"
    · rw [if_pos hs]
    · rw [if_neg hs]
      rcases hi with hi | hi
      · exact h.mpr ⟨i, hi, hsev⟩
      · subst hi
        exact absurd hsev hs

theorem reportInv_addWarning (r : ValidationReport) (m : String)
    (h : ReportInv r) : ReportInv (addWarning r m) := by
  simpa [ReportInv, addWarning] using h

theorem reportInv_addStat (r : ValidationReport) (k v : String)
    (h : ReportInv r) : ReportInv (addStat r k v) := by
  simpa [ReportInv, addStat] using h

theorem reportInv_foldl {α : Type} {f : ValidationReport → α → ValidationReport}
    (hf : ∀ rep x, ReportInv rep → ReportInv (f rep x)) :
    ∀ (l : List α) {rep : ValidationReport}, ReportInv rep → ReportInv (l.foldl f rep) := by
  intro l
  induction l with
  | nil => intro rep h; exact h
  | cons a t ih => intro rep h; exact ih (hf rep a h)

theorem validate_reportInv (tz : String) (df : DataFrame) (interval : String)
    (autoFix : Bool) : ReportInv (validateDataframe tz df interval autoFix).2 := by
  rw [validateDataframe]
  split
  · exact reportInv_addIssue _ _ _ _ _ reportInv_empty
  · dsimp only
    split
    · exact reportInv_addIssue _ _ _ _ _
        (reportInv_addStat _ _ _ (reportInv_addStat _ _ _ (reportInv_addStat _ _ _ reportInv_empty)))
    · have hstep : ∀ (v : DataFrame) (rep : ValidationReport), ReportInv rep →
          ReportInv (addStat
            (match checkTimezone v tz with
              | some w => addWarning ((checkGaps v interval).foldl
                  (fun r g => addIssue r "gaps" "warning" g.message (some g.details))
                  ((checkDataQuality v).foldl
                    (fun r q => addIssue r "data_quality" q.severity q.message q.details) rep)) w
              | none => (checkGaps v interval).foldl
                  (fun r g => addIssue r "gaps" "warning" g.message (some g.details))
                  ((checkDataQuality v).foldl
                    (fun r q => addIssue r "data_quality" q.severity q.message q.details) rep))
            "validated_rows" (toString v.rows.length)) := by
        intro v rep hp
        apply reportInv_addStat
        have h4 : ReportInv ((checkGaps v interval).foldl
            (fun r g => addIssue r "gaps" "warning" g.message (some g.details))
            ((checkDataQuality v).foldl
              (fun r q => addIssue r "data_quality" q.severity q.message q.details) rep)) :=
          reportInv_foldl (fun r x h => reportInv_addIssue _ _ _ _ _ h) _
            (reportInv_foldl (fun r x h => reportInv_addIssue _ _ _ _ _ h) _ hp)
        cases checkTimezone v tz with
        | some w => exact reportInv_addWarning _ _ h4
        | none => exact h4
      have hrep1 : ReportInv (addStat (addStat (addStat ValidationReport.empty
          "total_rows" (toString df.rows.length)) "interval" interval)
          "date_range" (dateRangeStat df)) :=
        reportInv_addStat _ _ _ (reportInv_addStat _ _ _ (reportInv_addStat _ _ _ reportInv_empty))
      by_cases haf : autoFix = true <;> by_cases hdup : 0 < checkDuplicates df
      · simp only [if_pos haf, if_pos hdup]
        exact reportInv_addStat _ _ _
          (hstep _ _ (reportInv_addWarning _ _ (reportInv_addIssue _ _ _ _ _ hrep1)))
      · simp only [if_pos haf, if_neg hdup]
        exact reportInv_addStat _ _ _ (hstep _ _ hrep1)
      · simp only [if_neg haf, if_pos hdup]
        exact hstep _ _ (reportInv_addIssue _ _ _ _ _ hrep1)
      · simp only [if_neg haf, if_neg hdup]
        exact hstep _ _ hrep1

/-! ## Retry loop lemmas -/

theorem retryGo_attempts_le {α : Type} (op : Nat → Except String α) :
    ∀ (r k : Nat) (last : Option String), (retryGo op r k last).2 ≤ k + r := by
  intro r
  induction r with
  | zero => intro k last; simp [retryGo]
  | succ r ih =>
    intro k last
    rw [retryGo]
    cases hop : op (k + 1) with
    | ok v => simp only [hop]; omega
    | error e =>
      simp only [hop]
      have := ih (k + 1) (some e)
      omega

theorem retryGo_exhausted_iff {α : Type} (op : Nat → Except String α) :
    ∀ (r k : Nat) (last : Option String),
      (∃ le, (retryGo op r k last).1 = .exhausted le) ↔
        (∀ i, k < i → i ≤ k + r → ∃ e, op i = Except.error e) := by
  intro r
  induction r with
  | zero =>
    intro k last
    constructor
    · intro _ i h1 h2; omega
    · intro _; exact ⟨last, rfl⟩
  | succ r ih =>
    intro k last
    rw [retryGo]
    cases hop : op (k + 1) with
    | ok v =>
      simp only [hop]
      constructor
      · rintro ⟨le, hle⟩; simp at hle
      · intro hall
        rcases hall (k + 1) (by omega) (by omega) with ⟨e, he⟩
        rw [hop] at he
        cases he
    | error e =>
      simp only [hop]
      rw [ih (k + 1) (some e)]
      constructor
      · intro h i h1 h2
        by_cases hik : i = k + 1
        · exact ⟨e, hik ▸ hop⟩
        · exact h i (by omega) (by omega)
      · intro h i h1 h2
        exact h i (by omega) (by omega)

theorem retryGo_ok_first {α : Type} (op : Nat → Except String α) :
    ∀ (r k : Nat) (last : Option String) (v : α),
      (retryGo op r k last).1 = .ok v →
        op (retryGo op r k last).2 = .ok v ∧
          (∀ i, k < i → i < (retryGo op r k last).2 → ∃ e, op i = Except.error e) ∧
          k < (retryGo op r k last).2 := by
  intro r
  induction r with
  | zero => intro k last v h; simp [retryGo] at h
  | succ r ih =>
    intro k last v h
    rw [retryGo] at h ⊢
    cases hop : op (k + 1) with
    | ok w =>
      simp only [hop] at h ⊢
      refine ⟨?_, fun i h1 h2 => by omega, by omega⟩
      cases h
      rfl
    | error e =>
      simp only [hop] at h ⊢
      rcases ih (k + 1) (some e) v h with ⟨ha, hb, hc⟩
      refine ⟨ha, ?_, by omega⟩
      intro i h1 h2
      by_cases hik : i = k + 1
      · exact ⟨e, hik ▸ hop⟩
      · exact hb i (by omega) h2

theorem retryGo_exhausted_last {α : Type} (op : Nat → Except String α) :
    ∀ (r k : Nat) (last : Option String) (le : Option String), 1 ≤ r →
      (retryGo op r k last).1 = .exhausted le →
        ∃ e, le = some e ∧ op (k + r) = Except.error e := by
  intro r
  induction r with
  | zero => intro k last le h _; omega
  | succ r ih =>
    intro k last le _ h
    rw [retryGo] at h
    cases hop : op (k + 1) with
    | ok w =>
      simp only [hop] at h
      cases h
    | error e =>
      simp only [hop] at h
      cases r with
      | zero =>
        rw [retryGo] at h
        simp only at h
        cases h
        exact ⟨e, rfl, hop⟩
      | succ r2 =>
        rcases ih (k + 1) (some e) le (by omega) h with ⟨e2, he2, hop2⟩
        refine ⟨e2, he2, ?_⟩
        have harg : k + 1 + (r2 + 1) = k + (r2 + 1 + 1) := by omega
        rw [harg] at hop2
        exact hop2

/-! ## Claim theorems -/

/-- C1, counterexample: the gap classifier labels the 2024-01-26 holiday
gap (a Friday in the holiday set) with reason market_holiday, not the
reason holiday stated by the claim. -/
theorem C1_holiday_reason_counterexample :
    (classifyGapInfo marketHolidays "1d" [⟨2024, 1, 26⟩] (some 0)).gap_reason ≠ some "holiday"
    ∧ (⟨2024, 1, 26⟩ : Date) ∈ marketHolidays
    ∧ Date.weekday ⟨2024, 1, 26⟩ < 5
    ∧ (classifyGapInfo marketHolidays "1d" [⟨2024, 1, 26⟩] (some 0)).is_valid_gap = true := by
  decide

/-- C1, amended: for every gap of a daily series whose date resolves in the
index, the classifier labels a Saturday/Sunday gap (true, weekend, not
fixable), a listed-holiday gap (true, market_holiday, not fixable), and any
other gap (false, trading_day, fixable). -/
theorem C1_gap_classifier (d : Date) (index : List Date) (i : Nat)
    (hidx : index.get? i = some d) :
    (5 ≤ d.weekday →
      classifyGapInfo marketHolidays "1d" index (some i) = ⟨true, some "weekend", false⟩)
    ∧ (d.weekday < 5 → d ∈ marketHolidays →
      classifyGapInfo marketHolidays "1d" index (some i) = ⟨true, some "market_holiday", false⟩)
    ∧ (d.weekday < 5 → d ∉ marketHolidays →
      classifyGapInfo marketHolidays "1d" index (some i) = ⟨false, some "trading_day", true⟩) := by
  have hidx2 : index[i]? = some d := by simpa using hidx
  refine ⟨fun hw => ?_, fun hw hh => ?_, fun hw hh => ?_⟩
  · simp [classifyGapInfo, hidx2, isValidGap, hw]
  · simp [classifyGapInfo, hidx2, isValidGap, not_le.mpr hw, hh]
  · simp [classifyGapInfo, hidx2, isValidGap, not_le.mpr hw, hh]

/-- C1 witness: a Saturday (2024-01-27), a weekday holiday (2024-01-26) and
an ordinary Monday (2024-01-29) take the three classifications. -/
theorem C1_gap_classifier_witness :
    classifyGapInfo marketHolidays "1d" [⟨2024, 1, 27⟩] (some 0) = ⟨true, some "weekend", false⟩
    ∧ classifyGapInfo marketHolidays "1d" [⟨2024, 1, 26⟩] (some 0)
        = ⟨true, some "market_holiday", false⟩
    ∧ classifyGapInfo marketHolidays "1d" [⟨2024, 1, 29⟩] (some 0)
        = ⟨false, some "trading_day", true⟩ :=
  ⟨(C1_gap_classifier ⟨2024, 1, 27⟩ [⟨2024, 1, 27⟩] 0 (by decide)).1 (by decide),
   (C1_gap_classifier ⟨2024, 1, 26⟩ [⟨2024, 1, 26⟩] 0 (by decide)).2.1 (by decide) (by decide),
   (C1_gap_classifier ⟨2024, 1, 29⟩ [⟨2024, 1, 29⟩] 0 (by decide)).2.2 (by decide) (by decide)⟩

/-- C2: when the incoming frame has a last row (t, r) at timestamp t, the
merged frame contains exactly that row at t (the incoming value wins); and
the spec's scenario merges to
[(2024-01-01, 100), (2024-01-02, 105), (2024-01-03, 102)]. -/
theorem C2_merge_incoming_wins (e n : DataFrame) (t : Timestamp) (r : Row)
    (n₁ n₂ : List (Timestamp × Row)) (hsplit : n.rows = n₁ ++ (t, r) :: n₂)
    (hlast : t ∉ n₂.map Prod.fst) :
    ((t, r) ∈ (mergeData (some e) n).rows
      ∧ ∀ q : Row, (t, q) ∈ (mergeData (some e) n).rows → q = r)
    ∧ (mergeData (some scenarioExisting) scenarioIncoming).rows
        = [(19723, rowOf 100), (19724, rowOf 105), (19725, rowOf 102)] := by
  have hne : n.rows ≠ [] := by
    intro hcon
    rw [hsplit] at hcon
    exact List.cons_ne_nil _ _ (List.append_eq_nil.mp hcon).2
  have hmem : (t, r) ∈ (mergeData (some e) n).rows := by
    rw [mergeData_eq (some e) n hne]
    rw [mem_sortIndex]
    show (t, r) ∈ (deduplicate (if e.rows.isEmpty then n else concatFrames e n)).rows
    split
    · exact deduplicate_mem_last n t r n₁ n₂ hsplit hlast
    · refine deduplicate_mem_last (concatFrames e n) t r (e.rows ++ n₁) n₂ ?_ hlast
      show e.rows ++ n.rows = (e.rows ++ n₁) ++ (t, r) :: n₂
      rw [hsplit]
      exact (List.append_assoc _ _ _).symm
  refine ⟨⟨hmem, fun q hq => eq_of_nodup_keys ?_ hq hmem⟩, by decide⟩
  exact (mergeData_ts_facts (some e) n hne).2

/-- C2 witness: in the scenario merge, the incoming row (2024-01-02, 105)
is the row the merged frame carries at that timestamp. -/
theorem C2_merge_incoming_wins_witness :
    (19724, rowOf 105) ∈ (mergeData (some scenarioExisting) scenarioIncoming).rows
    ∧ ∀ q : Row, (19724, q) ∈ (mergeData (some scenarioExisting) scenarioIncoming).rows →
        q = rowOf 105 :=
  (C2_merge_incoming_wins scenarioExisting scenarioIncoming 19724 (rowOf 105)
    [] [(19725, rowOf 102)] (by decide) (by decide)).1

/-- C3, counterexample: with a recorded end date of 2024-01-01 (epoch day
19723) and the 1d grain, the planned window starts at 19724, one day after
the recorded end, not at the end date itself. -/
theorem C3_fetch_window_counterexample :
    metaDaily.dateRangeEnd = some 19723
    ∧ calculateFetchRange metaDaily none 19800 = ⟨some 19724, some 19800, none⟩
    ∧ (19724 : Int) ≠ 19723 := by
  decide

/-- C3, amended: with a recorded end date and no explicit target date, the
planned window runs from the recorded end advanced by one grain step to
now; for the 1d grain that step is one day. -/
theorem C3_fetch_window (meta : Metadata) (e now : Int)
    (h : meta.dateRangeEnd = some e) :
    calculateFetchRange meta none now
      = ⟨some (calculateNextDate e meta.interval), some now, none⟩
    ∧ calculateNextDate e "1d" = e + 1 := by
  constructor
  · simp [calculateFetchRange, getNextFetchDate, h]
  · have h1 : (strEndsWith "1d" "m" || strEndsWith "1d" "h") = false := by decide
    simp [calculateNextDate, h1]

/-- C3 witness: the amended window at the concrete daily metadata. -/
theorem C3_fetch_window_witness :
    calculateFetchRange metaDaily none 19800
      = ⟨some (calculateNextDate 19723 metaDaily.interval), some 19800, none⟩
    ∧ calculateNextDate 19723 "1d" = 19723 + 1 :=
  C3_fetch_window metaDaily 19723 19800 (by decide)

/-- C4: a provider returning an empty frame on every attempt makes
fetch_data raise DataFetchError after exhausting its retries, even though
merging an empty frame leaves the existing series unchanged; the claim's
no-exception behaviour is what the spec and the repository's own test
expect, and the code contradicts it. -/
theorem C4_empty_fetch_raises :
    fetchData (fun _ => .ok emptyFrame) "RELIANCE.NS" 3
      = .fetchError "Failed to fetch data for RELIANCE.NS after 3 attempts"
    ∧ mergeData (some scenarioExisting) emptyFrame = scenarioExisting := by
  decide

/-- C5: the validation report flags is_valid = false exactly when at least
one recorded issue has severity error or critical. -/
theorem C5_is_valid_iff (tz : String) (df : DataFrame) (interval : String)
    (autoFix : Bool) :
    (validateDataframe tz df interval autoFix).2.is_valid = false ↔
      ∃ i ∈ (validateDataframe tz df interval autoFix).2.issues,
        i.severity = "error" ∨ i.severity = "critical" :=
  validate_reportInv tz df interval autoFix

/-- C5 witness: the frame with High = 99 below Low = 100 yields an error
issue and an invalid report. -/
theorem C5_is_valid_iff_witness :
    (validateDataframe "Asia/Kolkata" highLowFrame "1d" false).2.is_valid = false :=
  (C5_is_valid_iff "Asia/Kolkata" highLowFrame "1d" false).mpr (by decide)

/-- C6: retry_with_backoff makes at most maxRetries attempts, returns the
first successful result, is exhausted exactly when every attempt within the
budget fails, wraps the last underlying error, and the two spec scenarios
(fail twice then succeed with budget 5; always fail with budget 3) behave
as stated. -/
theorem C6_retry_with_backoff (op : Nat → Except String Nat) (n : Nat) :
    (retryWithBackoff op n).2 ≤ n
    ∧ ((∃ le, (retryWithBackoff op n).1 = .exhausted le) ↔
        ∀ i, 1 ≤ i → i ≤ n → ∃ e, op i = Except.error e)
    ∧ (∀ e, (retryWithBackoff op n).1 = .exhausted (some e) → op n = Except.error e)
    ∧ (∀ v, (retryWithBackoff op n).1 = .ok v →
        op (retryWithBackoff op n).2 = Except.ok v
          ∧ ∀ i, 1 ≤ i → i < (retryWithBackoff op n).2 → ∃ e, op i = Except.error e)
    ∧ retryWithBackoff twiceFailingOp 5 = (.ok 42, 3)
    ∧ retryWithBackoff alwaysFailingOp 3 = (.exhausted (some "fail 3"), 3) := by
  refine ⟨?_, ?_, ?_, ?_, by decide, by decide⟩
  · show (retryGo op n 0 none).2 ≤ n
    have := retryGo_attempts_le op n 0 none
    omega
  · show (∃ le, (retryGo op n 0 none).1 = .exhausted le) ↔ _
    rw [retryGo_exhausted_iff op n 0 none]
    constructor
    · intro h i h1 h2
      exact h i (by omega) (by omega)
    · intro h i h1 h2
      exact h i (by omega) (by omega)
  · intro e he
    have he2 : (retryGo op n 0 none).1 = .exhausted (some e) := he
    cases n with
    | zero =>
      rw [retryGo] at he2
      simp at he2
    | succ m =>
      rcases retryGo_exhausted_last op (m + 1) 0 none (some e) (by omega) he2
        with ⟨e2, he3, hop⟩
      injection he3 with hee
      rw [← hee] at hop
      simpa using hop
  · intro v hv
    have hv2 : (retryGo op n 0 none).1 = .ok v := hv
    rcases retryGo_ok_first op n 0 none v hv2 with ⟨ha, hb, _⟩
    exact ⟨ha, fun i h1 h2 => hb i (by omega) h2⟩

/-- C6 witness: the always-failing operation with budget 3 is exhausted
after exactly 3 attempts wrapping the last error. -/
theorem C6_retry_with_backoff_witness :
    retryWithBackoff alwaysFailingOp 3 = (.exhausted (some "fail 3"), 3)
    ∧ alwaysFailingOp 3 = Except.error "fail 3" := by
  have h := C6_retry_with_backoff alwaysFailingOp 3
  exact ⟨h.2.2.2.2.2, h.2.2.1 "fail 3" (by rw [h.2.2.2.2.2])⟩

/-- C7: when the merged frame fails the pre-save quick validation,
merge_and_save aborts with a MergeError and the on-disk file state is left
exactly as it was. -/
theorem C7_merge_and_save_aborts (fs : Option DataFrame) (newDf : DataFrame)
    (h : quickValidate (mergeData fs newDf) = false) :
    (mergeAndSave fs newDf).1 = .mergeError "Merged data failed validation"
    ∧ (mergeAndSave fs newDf).2 = fs := by
  constructor <;> simp [mergeAndSave, h]

/-- C7 witness: merging a frame lacking most OHLCV columns into an absent
file fails validation, aborts, and leaves the file absent. -/
theorem C7_merge_and_save_aborts_witness :
    quickValidate (mergeData none missingColsFrame) = false
    ∧ (mergeAndSave none missingColsFrame).1 = .mergeError "Merged data failed validation"
    ∧ (mergeAndSave none missingColsFrame).2 = none := by
  have h : quickValidate (mergeData none missingColsFrame) = false := by decide
  exact ⟨h, (C7_merge_and_save_aborts none missingColsFrame h).1,
    (C7_merge_and_save_aborts none missingColsFrame h).2⟩

/-- C8, counterexample: with an empty incoming frame, merge returns the
existing frame untouched, so an out-of-order existing frame yields a merge
result that is not strictly ascending. -/
theorem C8_empty_incoming_counterexample :
    mergeData (some unsortedExisting) emptyFrame = unsortedExisting
    ∧ ¬ List.Sorted (fun a b : Timestamp => a < b)
        (mergeData (some unsortedExisting) emptyFrame).ts := by
  decide

/-- C8, amended: whenever the incoming frame is non-empty, the merge result
under the default deduplicate and sort options has strictly increasing,
duplicate-free timestamps, for every existing frame and input ordering. -/
theorem C8_merge_sorted_nodup (existing : Option DataFrame) (n : DataFrame)
    (h : n.rows ≠ []) :
    List.Sorted (fun a b : Timestamp => a < b) (mergeData existing n).ts
    ∧ (mergeData existing n).ts.Nodup :=
  mergeData_ts_facts existing n h

/-- C8 witness: merging the scenario incoming frame into an out-of-order
existing frame still yields a strictly ascending, duplicate-free result. -/
theorem C8_merge_sorted_nodup_witness :
    List.Sorted (fun a b : Timestamp => a < b)
      (mergeData (some unsortedExisting) scenarioIncoming).ts
    ∧ (mergeData (some unsortedExisting) scenarioIncoming).ts.Nodup :=
  C8_merge_sorted_nodup (some unsortedExisting) scenarioIncoming (by decide)

/-- C9: merging an empty incoming frame returns the existing frame
unchanged, and an empty frame when the existing frame is absent, for any
deduplicate and sort flags. -/
theorem C9_merge_empty_incoming (e n : DataFrame) (dedup sort : Bool)
    (h : n.rows = []) :
    mergeData (some e) n dedup sort = e ∧ mergeData none n dedup sort = emptyFrame := by
  constructor <;> simp [mergeData, h]

/-- C9 witness: the identity at the concrete scenario frame. -/
theorem C9_merge_empty_incoming_witness :
    mergeData (some scenarioExisting) emptyFrame true true = scenarioExisting
    ∧ mergeData none emptyFrame true true = emptyFrame :=
  C9_merge_empty_incoming scenarioExisting emptyFrame true true rfl

/-- C10: a stored last_update string that the timestamp parser rejects
makes needs_update return true without raising, for any clock value and any
maximum age. -/
theorem C10_needs_update_on_parse_failure (parseTs : String → Option Int)
    (meta : Metadata) (now : Int) (maxAgeHours : Nat) (s : String)
    (hs : meta.last_update = some s) (hp : parseTs s = none) :
    needsUpdate parseTs meta now maxAgeHours = true := by
  simp [needsUpdate, hs, hp]

/-- C10 witness: a metadata record with an unparsable last_update is
reported as needing an update. -/
theorem C10_needs_update_witness :
    needsUpdate (fun _ => none) ⟨"TCS.NS", "1d", some "not-a-timestamp", 10, none, none⟩
      0 24 = true :=
  C10_needs_update_on_parse_failure (fun _ => none) _ 0 24 "not-a-timestamp" rfl rfl

end StocksData
